import Mathlib

/-!
Verification development for the OneClick-Checkout repository.

This file gives a shallow embedding of the repository's core logic — the
multi-endpoint RPC failover (getWorkingConnection, in three server-side
variants and one client-side variant), the balance/mint discovery
(detectUsdcBalanceAndMint / debugWalletTokens in src/src/app/page.tsx), the
payment initiation handler (src/src/app/api/solana-pay/route.ts POST), the
payment confirmation handler (src/src/app/api/confirm-payment/route.ts POST),
the transaction lookup handler (the get-transaction route) and the dashboard
read — and proves properties of those definitions.

Network effects are modelled by explicit "world" records of oracles: each
remote call's outcome (success value, null result, or thrown error) is a
field of the world, and every definition is a pure function of the world,
the request and the mutable module state it touches (the connection cache
slot and the in-memory ledger `db`).
-/

namespace OneClick

/-- Network world for the endpoint selectors: the outcome of the cached
connection's chain-height probe (`cachedConnection.getSlot()`), and the
per-endpoint outcomes of the chain-height (`getSlot`) and node-version
(`getVersion`) probes issued on a freshly constructed connection. -/
structure RpcWorld where
  cacheProbeOk : Bool
  slotOk : String → Bool
  versionOk : String → Bool

/-- The module-level connection cache (`cachedConnection` / `cachedEndpoint`):
at most one endpoint is cached; `none` models both variables being null. -/
structure ConnCache where
  cachedEndpoint : Option String
deriving DecidableEq

/-- Result of one call to a server-side `getWorkingConnection`: the endpoint
of the returned connection (`none` = "no working RPC endpoints found"), the
final state of the cache slot, the list of candidate endpoints that were
probed (in order), and whether the cached connection was probed. -/
structure SelectResult where
  result : Option String
  cache : ConnCache
  probed : List String
  cacheProbed : Bool
deriving DecidableEq

/-- The RPC_ENDPOINTS list shared (verbatim, module by module) by
src/src/app/api/solana-pay/route.ts, src/src/app/api/confirm-payment/route.ts,
the get-transaction route and src/src/app/page.tsx.
`clusterApiUrl('devnet')` resolves to the devnet URL, so the first two
entries coincide. -/
def RPC_ENDPOINTS : List String :=
  ["https://api.devnet.solana.com",
   "https://api.devnet.solana.com",
   "https://rpc.ankr.com/solana_devnet",
   "https://devnet.helius-rpc.com/?api-key=your-api-key"]

/-- The fixed candidate token-mint list POTENTIAL_USDC_MINTS, identical in
src/src/app/page.tsx and src/src/app/api/solana-pay/route.ts. -/
def POTENTIAL_USDC_MINTS : List String :=
  ["4zMMC9srt5Ri5X14GAgXhaHii3GnPAEERYPJgZJDncDU",
   "Gh9ZwEmdLJ8DscKNTkTqPbNwLNNBjuSzaG9Vp2KGtKJr",
   "EPjFWdd5AufqSSqeM2qN1xzybapC8G4wEGGkZwyTDt1v"]

/-- MERCHANT_WALLET fallback constant (the `process.env.MERCHANT_WALLET`
override is absent in this deployment model). -/
def MERCHANT_WALLET : String := "86xCnPeV69n6t3DnyGkfpPEX4kuT3t6eJ5iAbPGYATcp"

/-- Candidate-iteration loop of `getWorkingConnection` in
src/src/app/api/solana-pay/route.ts lines 58-87 and
src/src/app/api/confirm-payment/route.ts lines 40-69: for each endpoint in
order, construct a connection and issue `getSlot` and `getVersion` jointly
(`Promise.all`); the first endpoint for which both succeed is returned.
Also returns the list of endpoints that were probed. -/
def tryEndpointsApi (w : RpcWorld) : List String → Option String × List String
  | [] => (none, [])
  | e :: rest =>
    if w.slotOk e && w.versionOk e then (some e, [e])
    else
      let p := tryEndpointsApi w rest
      (p.1, e :: p.2)

/-- `getWorkingConnection` of the solana-pay and confirm-payment API routes
(identical code in both files): if a cached connection exists, probe it with
`getSlot`; on success return it, on failure null both cache variables and
fall through to the candidate iteration.  The first candidate passing both
probes is stored in the cache and returned; if all fail, null is returned
(and the cache stays empty). -/
def apiGetWorkingConnection (w : RpcWorld) (endpoints : List String)
    (c : ConnCache) : SelectResult :=
  match c.cachedEndpoint with
  | some e =>
    if w.cacheProbeOk then
      { result := some e, cache := c, probed := [], cacheProbed := true }
    else
      let p := tryEndpointsApi w endpoints
      { result := p.1, cache := { cachedEndpoint := p.1 }, probed := p.2,
        cacheProbed := true }
  | none =>
    let p := tryEndpointsApi w endpoints
    { result := p.1, cache := { cachedEndpoint := p.1 }, probed := p.2,
      cacheProbed := false }

/-- Candidate-iteration loop of `getWorkingConnection` in the
get-transaction route (src/unnamed/part_002 lines 38-63): unlike the
solana-pay/confirm-payment variants, each candidate is tested with a single
`getSlot` probe only (no `getVersion`). -/
def tryEndpointsTx (w : RpcWorld) : List String → Option String × List String
  | [] => (none, [])
  | e :: rest =>
    if w.slotOk e then (some e, [e])
    else
      let p := tryEndpointsTx w rest
      (p.1, e :: p.2)

/-- `getWorkingConnection` of the get-transaction route (src/unnamed/part_002
lines 24-67): cached-connection probe as in the API routes, but the
candidate iteration issues only the chain-height probe. -/
def getTxGetWorkingConnection (w : RpcWorld) (endpoints : List String)
    (c : ConnCache) : SelectResult :=
  match c.cachedEndpoint with
  | some e =>
    if w.cacheProbeOk then
      { result := some e, cache := c, probed := [], cacheProbed := true }
    else
      let p := tryEndpointsTx w endpoints
      { result := p.1, cache := { cachedEndpoint := p.1 }, probed := p.2,
        cacheProbed := true }
  | none =>
    let p := tryEndpointsTx w endpoints
    { result := p.1, cache := { cachedEndpoint := p.1 }, probed := p.2,
      cacheProbed := false }

/-- Result of the client-side selector in src/src/app/page.tsx: the returned
endpoint, the new `workingRpc` state, and the candidates probed. -/
structure PageSelectResult where
  result : Option String
  workingRpc : Option String
  probed : List String
deriving DecidableEq

/-- Candidate-iteration loop of the client-side `getWorkingConnection`
(src/src/app/page.tsx lines 125-140): each candidate is tested with a
single `getVersion` probe. -/
def tryEndpointsPage (w : RpcWorld) : List String → Option String × List String
  | [] => (none, [])
  | e :: rest =>
    if w.versionOk e then (some e, [e])
    else
      let p := tryEndpointsPage w rest
      (p.1, e :: p.2)

/-- Client-side `getWorkingConnection` (src/src/app/page.tsx lines 120-144):
if `workingRpc` is set, a connection against it is returned immediately —
no probe at all is issued and the cache is never invalidated here.
Otherwise the candidates are iterated with a single `getVersion` probe and
the first success is stored in `workingRpc` and returned. -/
def pageGetWorkingConnection (w : RpcWorld) (endpoints : List String)
    (workingRpc : Option String) : PageSelectResult :=
  match workingRpc with
  | some r => { result := some r, workingRpc := some r, probed := [] }
  | none =>
    let p := tryEndpointsPage w endpoints
    { result := p.1, workingRpc := p.1, probed := p.2 }

theorem tryEndpointsApi_append_fail (w : RpcWorld) (pre l : List String)
    (h : ∀ x ∈ pre, ¬(w.slotOk x = true ∧ w.versionOk x = true)) :
    tryEndpointsApi w (pre ++ l) =
      ((tryEndpointsApi w l).1, pre ++ (tryEndpointsApi w l).2) := by
  induction pre with
  | nil => simp [tryEndpointsApi]
  | cons a as ih =>
    have ha := h a (List.mem_cons_self a as)
    have hcond : (w.slotOk a && w.versionOk a) = false := by
      cases hs : w.slotOk a <;> cases hv : w.versionOk a <;> simp_all
    have ih' := ih (fun x hx => h x (List.mem_cons_of_mem a hx))
    simp [tryEndpointsApi, hcond, ih']

theorem tryEndpointsTx_append_fail (w : RpcWorld) (pre l : List String)
    (h : ∀ x ∈ pre, w.slotOk x = false) :
    tryEndpointsTx w (pre ++ l) =
      ((tryEndpointsTx w l).1, pre ++ (tryEndpointsTx w l).2) := by
  induction pre with
  | nil => simp [tryEndpointsTx]
  | cons a as ih =>
    have ha := h a (List.mem_cons_self a as)
    have ih' := ih (fun x hx => h x (List.mem_cons_of_mem a hx))
    simp [tryEndpointsTx, ha, ih']

theorem tryEndpointsApi_probed_prefix (w : RpcWorld) (l : List String) :
    (tryEndpointsApi w l).2 <+: l := by
  induction l with
  | nil => simp [tryEndpointsApi]
  | cons a as ih =>
    by_cases hc : (w.slotOk a && w.versionOk a) = true
    · simp [tryEndpointsApi, hc]
    · simp only [tryEndpointsApi, hc, if_neg]
      simp only [Bool.not_eq_true] at hc
      simp [hc]
      exact ih

theorem tryEndpointsTx_probed_prefix (w : RpcWorld) (l : List String) :
    (tryEndpointsTx w l).2 <+: l := by
  induction l with
  | nil => simp [tryEndpointsTx]
  | cons a as ih =>
    by_cases hc : w.slotOk a = true
    · simp [tryEndpointsTx, hc]
    · simp only [Bool.not_eq_true] at hc
      simp [tryEndpointsTx, hc]
      exact ih

/-- A resolved balance: human-readable quantity and the mint identifier
(`none` = NotFound, reported as zero balance). -/
structure Resolved where
  balance : ℚ
  mint : Option String
deriving DecidableEq

/-- The part of a token account's raw data the resolver uses: its byte
length and the base58 rendering of its first 32 bytes (the mint field). -/
structure AcctData where
  len : Nat
  mintStr : String
deriving DecidableEq

/-- Result of `debugWalletTokens` in src/src/app/page.tsx. -/
structure DebugResult where
  balance : ℚ
  mint : Option String
  tokenAccount : Option String
deriving DecidableEq

/-- Network world for the balance/mint resolver, for a fixed owner address.
`Except Unit` models a thrown RPC error; an `Option` payload models a null
result (`uiAmount` may be null even on success). `ata m` is the owner's
deterministic associated-token address for mint `m`
(`getAssociatedTokenAddress`). -/
structure TokenWorld where
  ata : String → String
  getAccountInfo : String → Except Unit (Option AcctData)
  getTokenAccountBalance : String → Except Unit (Option ℚ)
  getSolBalance : Except Unit Nat
  getTokenAccountsByOwner : Except Unit (List String)
  getProgramAccounts : Except Unit (List (String × AcctData))

/-- One iteration of Method 1 of `detectUsdcBalanceAndMint`
(src/src/app/page.tsx lines 217-250): compute the owner's associated token
address for the candidate mint, check the account exists with nonempty data,
then read its balance; any thrown error, missing account, null or zero
balance yields `none` (logged and skipped — the loop continues). -/
def tryKnownMint (w : TokenWorld) (m : String) : Option Resolved :=
  match w.getAccountInfo (w.ata m) with
  | .error _ => none
  | .ok none => none
  | .ok (some d) =>
    if 0 < d.len then
      match w.getTokenAccountBalance (w.ata m) with
      | .error _ => none
      | .ok none => none
      | .ok (some q) => if 0 < q then some ⟨q, some m⟩ else none
    else none

/-- The Method-1 for-loop over the candidate mint list: first candidate on
which `tryKnownMint` succeeds wins. -/
def method1Scan (w : TokenWorld) : List String → Option Resolved
  | [] => none
  | m :: rest =>
    match tryKnownMint w m with
    | some r => some r
    | none => method1Scan w rest

/-- One iteration of the account loop in `debugWalletTokens`
(src/src/app/page.tsx lines 164-200): read the token account's balance
(thrown error or null/zero balance → skip); on a nonzero balance read the
account info and, if its data holds at least 32 bytes, decode the mint from
the first 32 bytes and return; a failed or short account-info read is
logged and the loop continues. -/
def debugScanAccount (w : TokenWorld) (pk : String) : Option DebugResult :=
  match w.getTokenAccountBalance pk with
  | .error _ => none
  | .ok none => none
  | .ok (some q) =>
    if 0 < q then
      match w.getAccountInfo pk with
      | .error _ => none
      | .ok none => none
      | .ok (some d) =>
        if 32 ≤ d.len then some ⟨q, some d.mintStr, some pk⟩ else none
    else none

/-- The account loop of `debugWalletTokens`. -/
def debugScanList (w : TokenWorld) : List String → Option DebugResult
  | [] => none
  | pk :: rest =>
    match debugScanAccount w pk with
    | some r => some r
    | none => debugScanList w rest

/-- `debugWalletTokens` (src/src/app/page.tsx lines 147-208): read the SOL
balance, enumerate all token accounts owned by the address, and scan them;
a thrown error in either preliminary call is caught and the zero result is
returned; if no scanned account yields a nonzero balance with a decodable
mint, the zero result is returned. -/
def debugWalletTokens (w : TokenWorld) : DebugResult :=
  match w.getSolBalance with
  | .error _ => ⟨0, none, none⟩
  | .ok _ =>
    match w.getTokenAccountsByOwner with
    | .error _ => ⟨0, none, none⟩
    | .ok accts =>
      match debugScanList w accts with
      | some r => r
      | none => ⟨0, none, none⟩

/-- One iteration of the Method-3 loop of `detectUsdcBalanceAndMint`
(src/src/app/page.tsx lines 283-297): read the balance of a program account
from the server-side filtered query (thrown error → skip); on a nonzero
balance decode the mint from the account data's first 32 bytes. -/
def scanProgramAccount (w : TokenWorld) (p : String × AcctData) :
    Option Resolved :=
  match w.getTokenAccountBalance p.1 with
  | .error _ => none
  | .ok none => none
  | .ok (some q) => if 0 < q then some ⟨q, some p.2.mintStr⟩ else none

/-- The Method-3 loop over the filtered program accounts. -/
def method3Scan (w : TokenWorld) : List (String × AcctData) → Option Resolved
  | [] => none
  | p :: rest =>
    match scanProgramAccount w p with
    | some r => some r
    | none => method3Scan w rest

/-- `detectUsdcBalanceAndMint` (src/src/app/page.tsx lines 211-309):
Method 1 (known candidate mints, in POTENTIAL_USDC_MINTS order), then
Method 2 (`debugWalletTokens` full scan, accepted when it reports a
positive balance and a mint), then Method 3 (server-side filtered
`getProgramAccounts` query, itself allowed to throw, in which case it is
skipped); if everything fails, the zero/NotFound result is returned. -/
def detectUsdcBalanceAndMint (w : TokenWorld) : Resolved :=
  match method1Scan w POTENTIAL_USDC_MINTS with
  | some r => r
  | none =>
    let dr := debugWalletTokens w
    if 0 < dr.balance ∧ dr.mint.isSome then ⟨dr.balance, dr.mint⟩
    else
      match w.getProgramAccounts with
      | .error _ => ⟨0, none⟩
      | .ok pas =>
        match method3Scan w pas with
        | some r => r
        | none => ⟨0, none⟩

theorem method1Scan_append_none (w : TokenWorld) (pre l : List String)
    (h : ∀ m ∈ pre, tryKnownMint w m = none) :
    method1Scan w (pre ++ l) = method1Scan w l := by
  induction pre with
  | nil => rfl
  | cons a as ih =>
    have ha := h a (List.mem_cons_self a as)
    have ih' := ih (fun m hm => h m (List.mem_cons_of_mem a hm))
    simp [method1Scan, ha, ih']

theorem method1Scan_eq_none (w : TokenWorld) (l : List String)
    (h : ∀ m ∈ l, tryKnownMint w m = none) :
    method1Scan w l = none := by
  induction l with
  | nil => rfl
  | cons a as ih =>
    have ha := h a (List.mem_cons_self a as)
    have ih' := ih (fun m hm => h m (List.mem_cons_of_mem a hm))
    simp [method1Scan, ha, ih']

theorem debugScanList_eq_none (w : TokenWorld) (l : List String)
    (h : ∀ pk ∈ l, debugScanAccount w pk = none) :
    debugScanList w l = none := by
  induction l with
  | nil => rfl
  | cons a as ih =>
    have ha := h a (List.mem_cons_self a as)
    have ih' := ih (fun m hm => h m (List.mem_cons_of_mem a hm))
    simp [debugScanList, ha, ih']

theorem method3Scan_eq_none (w : TokenWorld) (l : List (String × AcctData))
    (h : ∀ p ∈ l, scanProgramAccount w p = none) :
    method3Scan w l = none := by
  induction l with
  | nil => rfl
  | cons a as ih =>
    have ha := h a (List.mem_cons_self a as)
    have ih' := ih (fun m hm => h m (List.mem_cons_of_mem a hm))
    simp [method3Scan, ha, ih']

/-- A receipt record (the `Transaction` interface of src/unnamed/part_000,
i.e. `@/lib/db`). -/
structure Receipt where
  buyer : String
  product : String
  amount : ℚ
  signature : String
  timestamp : Int
  imageUrl : Option String
deriving DecidableEq

/-- The in-memory ledger `db` of src/unnamed/part_000. -/
structure Db where
  transactions : List Receipt
  totalSales : ℚ
  nftReceiptsIssued : Nat
deriving DecidableEq

/-- Initial ledger state (`db` as declared in src/unnamed/part_000). -/
def dbInit : Db := ⟨[], 0, 0⟩

/-- The ledger invariant: `totalSales` is the sum of the recorded amounts
and `nftReceiptsIssued` counts the records. -/
def DbInv (db : Db) : Prop :=
  db.totalSales = (db.transactions.map Receipt.amount).sum ∧
    db.nftReceiptsIssued = db.transactions.length

/-- A parsed transaction as the handlers consume it: its account keys in
base58, its (nullable) block time in seconds, and whether `meta.err` is
set (its on-chain failure status — read only by the get-transaction
route). -/
structure ParsedTx where
  accountKeys : List String
  blockTime : Option Int
  metaErr : Bool
deriving DecidableEq

/-- Outcome of one `connection.getParsedTransaction` call: a transaction,
a null result, or a thrown error. -/
inductive FetchOutcome where
  | found (tx : ParsedTx)
  | notFound
  | threw
deriving DecidableEq

/-- Trace events of the transaction-fetch retry loop: a fetch attempt, or a
re-acquisition of a connection through the endpoint selector (recording the
selector's result). -/
inductive FetchEvent where
  | fetchEv (attempt : Nat)
  | reacqEv (attempt : Nat) (result : Option String)
deriving DecidableEq

/-- `maxRetries` of the transaction-fetch loops. -/
def maxRetries : Nat := 3

/-- The transaction-fetch retry loop shared by the confirm-payment POST
(src/src/app/api/confirm-payment/route.ts lines 105-146) and the
get-transaction GET (src/unnamed/part_002 lines 149-181), parameterised by
the route's endpoint selector `selFn` (invoked on an emptied cache slot
after a thrown attempt).  `rem` is the remaining loop budget
`maxRetries - attempt`, which decreases on every iteration, so the loop
terminates.  A found transaction breaks out; a null result just retries;
a thrown error with attempts remaining empties the cache slot and re-runs
the selector, breaking out early if no endpoint can be re-acquired. -/
def fetchGo (selFn : RpcWorld → ConnCache → SelectResult)
    (rpcAt : Nat → RpcWorld) (fetchAt : Nat → FetchOutcome) :
    Nat → Nat → ConnCache → Option ParsedTx × ConnCache × List FetchEvent
  | _, 0, c => (none, c, [])
  | attempt, rem + 1, c =>
    match fetchAt attempt with
    | .found tx => (some tx, c, [.fetchEv attempt])
    | .notFound =>
      let r := fetchGo selFn rpcAt fetchAt (attempt + 1) rem c
      (r.1, r.2.1, .fetchEv attempt :: r.2.2)
    | .threw =>
      if attempt < maxRetries - 1 then
        let sel := selFn (rpcAt attempt) ⟨none⟩
        match sel.result with
        | none => (none, sel.cache, [.fetchEv attempt, .reacqEv attempt none])
        | some _ =>
          let r := fetchGo selFn rpcAt fetchAt (attempt + 1) rem sel.cache
          (r.1, r.2.1, .fetchEv attempt :: .reacqEv attempt sel.result :: r.2.2)
      else
        let r := fetchGo selFn rpcAt fetchAt (attempt + 1) rem c
        (r.1, r.2.1, .fetchEv attempt :: r.2.2)

/-- The confirm-payment route's selector applied to its RPC_ENDPOINTS. -/
def apiSelFn (rw : RpcWorld) (cc : ConnCache) : SelectResult :=
  apiGetWorkingConnection rw RPC_ENDPOINTS cc

/-- The get-transaction route's selector applied to its RPC_ENDPOINTS. -/
def getTxSelFn (rw : RpcWorld) (cc : ConnCache) : SelectResult :=
  getTxGetWorkingConnection rw RPC_ENDPOINTS cc

/-- The confirm-payment fetch loop, run from attempt 0 with full budget. -/
def confirmFetchRun (rpcAt : Nat → RpcWorld) (fetchAt : Nat → FetchOutcome)
    (c : ConnCache) : Option ParsedTx × ConnCache × List FetchEvent :=
  fetchGo apiSelFn rpcAt fetchAt 0 maxRetries c

/-- The get-transaction fetch loop, run from attempt 0 with full budget. -/
def getTxFetchRun (rpcAt : Nat → RpcWorld) (fetchAt : Nat → FetchOutcome)
    (c : ConnCache) : Option ParsedTx × ConnCache × List FetchEvent :=
  fetchGo getTxSelFn rpcAt fetchAt 0 maxRetries c

/-- Recognises a fetch attempt in a trace. -/
def isFetchEv : FetchEvent → Bool
  | .fetchEv _ => true
  | .reacqEv _ _ => false

/-- The product descriptor the confirm-payment handler reads: `name` and
`price` (a JS number, modelled as a rational). -/
structure ConfirmProduct where
  name : String
  price : ℚ
deriving DecidableEq

/-- The confirm-payment request body: signature and product, each possibly
missing; a `some ""` signature models the empty string (falsy in JS). -/
structure ConfirmBody where
  signature : Option String
  product : Option ConfirmProduct
deriving DecidableEq

/-- Network world for the confirm-payment handler: the world of its initial
selector call, a world per re-acquisition attempt, a fetch outcome per
attempt, the AI image-generation outcome and the current `Date.now()`. -/
structure ConfirmWorld where
  selWorld : RpcWorld
  rpcAt : Nat → RpcWorld
  fetchAt : Nat → FetchOutcome
  imageGen : Except Unit String
  nowMs : Int

/-- Responses of the confirm-payment POST handler. -/
inductive ConfirmResp where
  | ok
  | missingParams
  | noEndpoints
  | notValid
  | internalError
deriving DecidableEq

/-- HTTP status of each confirm-payment response. -/
def ConfirmResp.status : ConfirmResp → Nat
  | .ok => 200
  | .missingParams => 400
  | .noEndpoints => 503
  | .notValid => 400
  | .internalError => 500

/-- The confirm-payment POST handler
(src/src/app/api/confirm-payment/route.ts lines 75-251).  `req = none`
models a body whose JSON parse throws (caught by the outer handler as a 500).
Falsy signature (missing or empty) or missing product is a 400.  Then the
endpoint selector runs (503 when it fails), the fetch retry loop runs, and,
if a transaction was fetched, a receipt is recorded and the totals
incremented exactly when the merchant wallet appears among its account
keys; otherwise — merchant absent or no transaction — the 400
"Transaction not valid" response is returned with the ledger untouched.
The unreachable empty-accountKeys read (`accountKeys[0]` on an empty list,
which would throw in JS) maps to the outer 500. -/
def confirmPost (w : ConfirmWorld) (req : Option ConfirmBody)
    (cache : ConnCache) (db : Db) : ConfirmResp × ConnCache × Db :=
  match req with
  | none => (.internalError, cache, db)
  | some b =>
    match b.signature, b.product with
    | some sig, some product =>
      if sig = "" then (.missingParams, cache, db)
      else
        let sel := apiGetWorkingConnection w.selWorld RPC_ENDPOINTS cache
        match sel.result with
        | none => (.noEndpoints, sel.cache, db)
        | some _ =>
          let fr := confirmFetchRun w.rpcAt w.fetchAt sel.cache
          match fr.1 with
          | some tx =>
            if MERCHANT_WALLET ∈ tx.accountKeys then
              match tx.accountKeys.head? with
              | some buyer =>
                let imageUrl : Option String :=
                  match w.imageGen with
                  | .ok u => some u
                  | .error _ => none
                let newTx : Receipt :=
                  { buyer := buyer, product := product.name,
                    amount := product.price, signature := sig,
                    timestamp :=
                      match tx.blockTime with
                      | some t => t * 1000
                      | none => w.nowMs,
                    imageUrl := imageUrl }
                (.ok, fr.2.1,
                  { transactions := db.transactions ++ [newTx],
                    totalSales := db.totalSales + product.price,
                    nftReceiptsIssued := db.nftReceiptsIssued + 1 })
              | none => (.internalError, fr.2.1, db)
            else (.notValid, fr.2.1, db)
          | none => (.notValid, fr.2.1, db)
    | _, _ => (.missingParams, cache, db)

/-- Executable model of JS `String.prototype.trim` (and `String.trim`):
strip leading and trailing whitespace. -/
def strTrim (s : String) : String :=
  ⟨((s.data.dropWhile Char.isWhitespace).reverse.dropWhile
      Char.isWhitespace).reverse⟩

/-- Network world for the get-transaction GET handler. -/
structure GetTxWorld where
  selWorld : RpcWorld
  rpcAt : Nat → RpcWorld
  fetchAt : Nat → FetchOutcome
  nowMs : Int

/-- Responses of the get-transaction GET handler. -/
inductive GetTxResp where
  | missingSig
  | invalidSig
  | localHit (r : Receipt)
  | noEndpoints
  | networkHit (sig buyer statusStr : String)
  | notFoundResp
deriving DecidableEq

/-- HTTP status of each get-transaction response. -/
def GetTxResp.httpStatus : GetTxResp → Nat
  | .missingSig => 400
  | .invalidSig => 400
  | .localHit _ => 200
  | .noEndpoints => 503
  | .networkHit _ _ _ => 200
  | .notFoundResp => 404

/-- The get-transaction GET handler (src/unnamed/part_002 lines 69-247):
falsy (missing or empty) signature → 400; whitespace-only signature → 400;
then the trimmed signature is looked up in the local ledger (a hit is the
"local_database"-sourced response); on a miss the endpoint selector runs
(503 on failure) and the fetch retry loop is attempted, producing either a
"solana_network"-sourced simplified record (buyer = first account key or
"Unknown", status "failed" when `meta.err` is set, else "confirmed") or
the 404 naming both searched locations.  The ledger is never written. -/
def getTransactionGET (w : GetTxWorld) (sig : Option String)
    (cache : ConnCache) (db : Db) : GetTxResp × ConnCache × Db :=
  match sig with
  | none => (.missingSig, cache, db)
  | some s =>
    if s = "" then (.missingSig, cache, db)
    else if strTrim s = "" then (.invalidSig, cache, db)
    else
      let t := strTrim s
      match db.transactions.find? (fun r => r.signature == t) with
      | some r => (.localHit r, cache, db)
      | none =>
        let sel := getTxGetWorkingConnection w.selWorld RPC_ENDPOINTS cache
        match sel.result with
        | none => (.noEndpoints, sel.cache, db)
        | some _ =>
          let fr := getTxFetchRun w.rpcAt w.fetchAt sel.cache
          match fr.1 with
          | some tx =>
            let buyer :=
              match tx.accountKeys.head? with
              | some b => b
              | none => "Unknown"
            let statusStr := if tx.metaErr then "failed" else "confirmed"
            (.networkHit t buyer statusStr, fr.2.1, db)
          | none => (.notFoundResp, fr.2.1, db)

/-- The dashboard GET handler (the dashboard API route): a read-only
snapshot of the ledger (transactions, totalSales, nftReceiptsIssued); the
ledger is returned unchanged. -/
def dashboardGET (db : Db) : (List Receipt × ℚ × Nat) × Db :=
  ((db.transactions, db.totalSales, db.nftReceiptsIssued), db)

/-- The `account` field of the initiate-payment body as the handler
distinguishes it: a truthy non-string value, or a string. -/
inductive AccountField where
  | notStr
  | str (s : String)
deriving DecidableEq

/-- The `product` field of the initiate-payment body: only `price` is read;
`none` models a missing or non-number price (`typeof product.price !==
'number'`). -/
structure InitProduct where
  price : Option ℚ
deriving DecidableEq

/-- The parsed initiate-payment body.  `account = none` models a missing or
falsy account; `usdcMint = none` models a missing or empty (falsy) optional
mint field. -/
structure InitBody where
  account : Option AccountField
  product : Option InitProduct
  usdcMint : Option String
deriving DecidableEq

/-- The raw initiate-payment request body: empty, unparseable JSON, or a
parsed body. -/
inductive InitReqBody where
  | empty
  | badJson
  | parsed (b : InitBody)

/-- A transaction instruction as built by the initiate-payment handler. -/
inductive Instr where
  | createATA (payer ataAddr owner mint : String)
  | transfer (source dest owner : String) (amount : ℚ)
deriving DecidableEq

/-- Responses of the initiate-payment POST handler: an error with HTTP
status and the `error` message of the JSON body, or the serialized
transaction (its instruction list) together with the mint it was built
against. -/
inductive InitResp where
  | err (status : Nat) (msg : String)
  | okTx (instrs : List Instr) (usedMint : String)
deriving DecidableEq

/-- Output of the initiate-payment handler: the response, the final cache
slot, and whether the endpoint selector was invoked (false on every
validation failure — no network call is made before validation passes). -/
structure InitOut where
  resp : InitResp
  cache : ConnCache
  selectorInvoked : Bool
deriving DecidableEq

/-- Network world for the initiate-payment handler. `validAddr` is
`isValidSolanaAddress` (whether `new PublicKey(s)` succeeds); `ataOf mint
owner` is `getAssociatedTokenAddress`; `acctExists` is `tokenAccountExists`
(which may itself re-throw, producing a 500). -/
structure InitWorld where
  rpc : RpcWorld
  validAddr : String → Bool
  ataOf : String → String → String
  acctExists : String → Except Unit Bool
  getLatestBlockhash : Except Unit Unit
  serializeOk : Bool

/-- `getUsdcMint` (src/src/app/api/solana-pay/route.ts lines 120-130): use
the provided mint only when it is present, nonempty and a valid address;
otherwise fall back to the first entry of POTENTIAL_USDC_MINTS. -/
def getUsdcMint (validAddr : String → Bool) (providedMint : Option String) :
    String :=
  match providedMint with
  | some s => if s ≠ "" ∧ validAddr s then s else POTENTIAL_USDC_MINTS.headI
  | none => POTENTIAL_USDC_MINTS.headI

/-- The validated tail of the initiate-payment POST handler
(src/src/app/api/solana-pay/route.ts lines 229-467), entered after all
request validation passed with the trimmed account `t`, the price `q` and
the provided mint field: pick the mint, acquire a connection (503 when none
works), compute both associated token addresses, check existence of both
token accounts (a re-thrown check is a 500), assemble the instruction list
(create missing token accounts, then the transfer of `price` shifted by
USDC's 6 decimals), fetch a blockhash (503 on failure) and serialize
(500 on failure). -/
def initiateChecked (w : InitWorld) (t : String) (q : ℚ)
    (usdcMintField : Option String) (c : ConnCache) : InitOut :=
  let USDC_MINT := getUsdcMint w.validAddr usdcMintField
  let sel := apiGetWorkingConnection w.rpc RPC_ENDPOINTS c
  match sel.result with
  | none => ⟨.err 503 "Failed to connect to Solana network", sel.cache, true⟩
  | some _ =>
    let userUsdcAddress := w.ataOf USDC_MINT t
    let merchantUsdcAddress := w.ataOf USDC_MINT MERCHANT_WALLET
    match w.acctExists userUsdcAddress with
    | .error _ => ⟨.err 500 "Error checking user token account", sel.cache, true⟩
    | .ok userAccountExists =>
      match w.acctExists merchantUsdcAddress with
      | .error _ =>
        ⟨.err 500 "Error checking merchant token account", sel.cache, true⟩
      | .ok merchantAccountExists =>
        let instrs : List Instr :=
          (if userAccountExists then []
           else [.createATA t userUsdcAddress t USDC_MINT]) ++
          (if merchantAccountExists then []
           else [.createATA t merchantUsdcAddress MERCHANT_WALLET USDC_MINT]) ++
          [.transfer userUsdcAddress merchantUsdcAddress t (q * 1000000)]
        match w.getLatestBlockhash with
        | .error _ =>
          ⟨.err 503 "Failed to get latest blockhash", sel.cache, true⟩
        | .ok _ =>
          if w.serializeOk then ⟨.okTx instrs USDC_MINT, sel.cache, true⟩
          else ⟨.err 500 "Failed to serialize transaction", sel.cache, true⟩

/-- The initiate-payment POST handler
(src/src/app/api/solana-pay/route.ts lines 132-490), validation phase: empty
body, bad JSON, falsy account or product, non-positive or non-numeric
price, non-string account, whitespace-only account, and invalid address are
rejected in that order, each as a 400 with its message, before any network
activity; a valid request proceeds to `initiateChecked`. -/
def initiatePost (w : InitWorld) (req : InitReqBody) (c : ConnCache) :
    InitOut :=
  match req with
  | .empty => ⟨.err 400 "Empty request body", c, false⟩
  | .badJson => ⟨.err 400 "Invalid JSON in request body", c, false⟩
  | .parsed b =>
    match b.account, b.product with
    | some a, some product =>
      if a = .str "" then
        ⟨.err 400 "Missing account or product parameter", c, false⟩
      else
        match product.price with
        | some q =>
          if q ≤ 0 then ⟨.err 400 "Invalid product price", c, false⟩
          else
            match a with
            | .notStr => ⟨.err 400 "Invalid account parameter type", c, false⟩
            | .str s =>
              if strTrim s = "" then
                ⟨.err 400 "Empty account parameter", c, false⟩
              else if ¬ w.validAddr (strTrim s) then
                ⟨.err 400 "Invalid Solana address format", c, false⟩
              else initiateChecked w (strTrim s) q b.usdcMint c
        | none => ⟨.err 400 "Invalid product price", c, false⟩
    | _, _ => ⟨.err 400 "Missing account or product parameter", c, false⟩

/-- Claim C8: for an empty candidate endpoint list and an empty cache, the
endpoint selector (solana-pay route variant) returns the "no endpoint
available" failure (null, surfaced as a 503 by the caller) without issuing
any network call: no candidate is probed, the cached connection is not
probed, and the cache stays empty. -/
theorem emptyCandidates_noNetworkCall (w : RpcWorld) :
    apiGetWorkingConnection w [] ⟨none⟩ =
      { result := none, cache := ⟨none⟩, probed := [], cacheProbed := false } :=
  rfl

/-- Claim C1, counterexample: in a world where the node-version probe fails
on every endpoint (so no candidate has both liveness probes succeeding, and
the claim requires the selector to return the no-endpoint failure), the
get-transaction route's endpoint selector (src/unnamed/part_002 lines
38-67, cited by the claim) nevertheless selects, caches and returns the
first candidate — it issues only the chain-height probe, not two probes. -/
theorem getTxSelector_singleProbe_cx :
    (getTxGetWorkingConnection
        { cacheProbeOk := true, slotOk := fun _ => true,
          versionOk := fun _ => false }
        ["e1"] ⟨none⟩).result = some "e1" ∧
    RpcWorld.versionOk
        { cacheProbeOk := true, slotOk := fun _ => true,
          versionOk := fun _ => false } "e1" = false :=
  ⟨rfl, rfl⟩

/-- Claim C1, amended: in the solana-pay and confirm-payment API routes,
every call of the endpoint selector that reaches the candidate-iteration
phase (empty cache, or cached probe failed) tests candidates in order with
the two concurrent liveness probes, both of which must succeed; the first
candidate passing both is stored in the cache slot and returned, and no
candidate after it is probed.  In the get-transaction route the same holds
with a single chain-height probe per candidate instead of two. -/
theorem selector_firstSuccess_shortCircuit :
    (∀ (w : RpcWorld) (pre post : List String) (e : String) (c : ConnCache),
      (c.cachedEndpoint = none ∨ w.cacheProbeOk = false) →
      (∀ x ∈ pre, ¬(w.slotOk x = true ∧ w.versionOk x = true)) →
      w.slotOk e = true → w.versionOk e = true →
      apiGetWorkingConnection w (pre ++ e :: post) c =
        { result := some e, cache := ⟨some e⟩, probed := pre ++ [e],
          cacheProbed := c.cachedEndpoint.isSome }) ∧
    (∀ (w : RpcWorld) (pre post : List String) (e : String) (c : ConnCache),
      (c.cachedEndpoint = none ∨ w.cacheProbeOk = false) →
      (∀ x ∈ pre, w.slotOk x = false) →
      w.slotOk e = true →
      getTxGetWorkingConnection w (pre ++ e :: post) c =
        { result := some e, cache := ⟨some e⟩, probed := pre ++ [e],
          cacheProbed := c.cachedEndpoint.isSome }) := by
  constructor
  · intro w pre post e c hc hpre hs hv
    have h1 : tryEndpointsApi w (pre ++ e :: post) = (some e, pre ++ [e]) := by
      rw [tryEndpointsApi_append_fail w pre _ hpre]
      simp [tryEndpointsApi, hs, hv]
    obtain ⟨ce⟩ := c
    cases ce with
    | none => simp [apiGetWorkingConnection, h1]
    | some x =>
      have hp : w.cacheProbeOk = false := by
        rcases hc with h | h
        · simp at h
        · exact h
      simp [apiGetWorkingConnection, hp, h1]
  · intro w pre post e c hc hpre hs
    have h1 : tryEndpointsTx w (pre ++ e :: post) = (some e, pre ++ [e]) := by
      rw [tryEndpointsTx_append_fail w pre _ hpre]
      simp [tryEndpointsTx, hs]
    obtain ⟨ce⟩ := c
    cases ce with
    | none => simp [getTxGetWorkingConnection, h1]
    | some x =>
      have hp : w.cacheProbeOk = false := by
        rcases hc with h | h
        · simp at h
        · exact h
      simp [getTxGetWorkingConnection, hp, h1]

/-- Claim C1, witness: concrete runs of both amended selector properties —
the second candidate is the first live one, the third is never probed. -/
theorem selector_firstSuccess_shortCircuit_witness :
    apiGetWorkingConnection
        { cacheProbeOk := true, slotOk := fun s => s == "e2",
          versionOk := fun s => s == "e2" }
        (["e1"] ++ "e2" :: ["e3"]) ⟨none⟩ =
      { result := some "e2", cache := ⟨some "e2"⟩, probed := ["e1"] ++ ["e2"],
        cacheProbed := (ConnCache.mk none).cachedEndpoint.isSome } ∧
    getTxGetWorkingConnection
        { cacheProbeOk := false, slotOk := fun s => s == "e2",
          versionOk := fun _ => false }
        (["e1"] ++ "e2" :: ["e3"]) ⟨some "e0"⟩ =
      { result := some "e2", cache := ⟨some "e2"⟩, probed := ["e1"] ++ ["e2"],
        cacheProbed := (ConnCache.mk (some "e0")).cachedEndpoint.isSome } :=
  ⟨selector_firstSuccess_shortCircuit.1 _ ["e1"] ["e3"] "e2" ⟨none⟩
      (Or.inl rfl) (by decide) (by decide) (by decide),
   selector_firstSuccess_shortCircuit.2 _ ["e1"] ["e3"] "e2" ⟨some "e0"⟩
      (Or.inr rfl) (by decide) (by decide)⟩

/-- Claim C4, counterexample: the client-side selector of src/src/app/page.tsx
(cited by the claim) does not probe a cached connection at all.  In a world
where every probe fails, the claim requires the cached connection's probe to
fail, the cache slot to be emptied, and one re-selection pass to end in
failure; instead the selector returns the cached endpoint with an empty
probe trace and the cache intact. -/
theorem pageSelector_noCacheProbe_cx :
    pageGetWorkingConnection
        { cacheProbeOk := false, slotOk := fun _ => false,
          versionOk := fun _ => false }
        RPC_ENDPOINTS (some "E") =
      { result := some "E", workingRpc := some "E", probed := [] } ∧
    RpcWorld.cacheProbeOk
        { cacheProbeOk := false, slotOk := fun _ => false,
          versionOk := fun _ => false } = false ∧
    RpcWorld.versionOk
        { cacheProbeOk := false, slotOk := fun _ => false,
          versionOk := fun _ => false } "E" = false :=
  ⟨rfl, rfl, rfl⟩

/-- Claim C4, amended: in the three server-side selectors (solana-pay,
confirm-payment, get-transaction routes), every call with a cached
connection first probes it; on success the cached connection is returned
with the candidate list untouched, and on failure the slot is emptied and
exactly one re-selection pass over the candidate list occurs (the probed
candidates form a prefix of the list — each is tried at most once, in
order) before a fresh connection or a failure is returned.  The client-side
selector of page.tsx issues no probe on a cache hit: the cached endpoint is
returned unconditionally and never invalidated there. -/
theorem selector_cacheProbe_discipline :
    (∀ (w : RpcWorld) (eps : List String) (e : String),
      w.cacheProbeOk = true →
      apiGetWorkingConnection w eps ⟨some e⟩ =
        { result := some e, cache := ⟨some e⟩, probed := [],
          cacheProbed := true }) ∧
    (∀ (w : RpcWorld) (eps : List String) (e : String),
      w.cacheProbeOk = false →
      apiGetWorkingConnection w eps ⟨some e⟩ =
        { result := (tryEndpointsApi w eps).1,
          cache := ⟨(tryEndpointsApi w eps).1⟩,
          probed := (tryEndpointsApi w eps).2, cacheProbed := true } ∧
      (tryEndpointsApi w eps).2 <+: eps) ∧
    (∀ (w : RpcWorld) (eps : List String) (e : String),
      w.cacheProbeOk = true →
      getTxGetWorkingConnection w eps ⟨some e⟩ =
        { result := some e, cache := ⟨some e⟩, probed := [],
          cacheProbed := true }) ∧
    (∀ (w : RpcWorld) (eps : List String) (e : String),
      w.cacheProbeOk = false →
      getTxGetWorkingConnection w eps ⟨some e⟩ =
        { result := (tryEndpointsTx w eps).1,
          cache := ⟨(tryEndpointsTx w eps).1⟩,
          probed := (tryEndpointsTx w eps).2, cacheProbed := true } ∧
      (tryEndpointsTx w eps).2 <+: eps) ∧
    (∀ (w : RpcWorld) (eps : List String) (r : String),
      pageGetWorkingConnection w eps (some r) =
        { result := some r, workingRpc := some r, probed := [] }) := by
  refine ⟨?_, ?_, ?_, ?_, ?_⟩
  · intro w eps e hp
    simp [apiGetWorkingConnection, hp]
  · intro w eps e hp
    exact ⟨by simp [apiGetWorkingConnection, hp],
      tryEndpointsApi_probed_prefix w eps⟩
  · intro w eps e hp
    simp [getTxGetWorkingConnection, hp]
  · intro w eps e hp
    exact ⟨by simp [getTxGetWorkingConnection, hp],
      tryEndpointsTx_probed_prefix w eps⟩
  · intro w eps r
    rfl

/-- Claim C4, witness: concrete runs of all five amended conjuncts. -/
theorem selector_cacheProbe_discipline_witness :
    apiGetWorkingConnection
        { cacheProbeOk := true, slotOk := fun _ => false,
          versionOk := fun _ => false } ["a"] ⟨some "E"⟩ =
      { result := some "E", cache := ⟨some "E"⟩, probed := [],
        cacheProbed := true } ∧
    (apiGetWorkingConnection
        { cacheProbeOk := false, slotOk := fun _ => true,
          versionOk := fun _ => true } ["a"] ⟨some "E"⟩ =
      { result := (tryEndpointsApi
          { cacheProbeOk := false, slotOk := fun _ => true,
            versionOk := fun _ => true } ["a"]).1,
        cache := ⟨(tryEndpointsApi
          { cacheProbeOk := false, slotOk := fun _ => true,
            versionOk := fun _ => true } ["a"]).1⟩,
        probed := (tryEndpointsApi
          { cacheProbeOk := false, slotOk := fun _ => true,
            versionOk := fun _ => true } ["a"]).2, cacheProbed := true } ∧
      (tryEndpointsApi
          { cacheProbeOk := false, slotOk := fun _ => true,
            versionOk := fun _ => true } ["a"]).2 <+: ["a"]) ∧
    getTxGetWorkingConnection
        { cacheProbeOk := true, slotOk := fun _ => false,
          versionOk := fun _ => false } ["a"] ⟨some "E"⟩ =
      { result := some "E", cache := ⟨some "E"⟩, probed := [],
        cacheProbed := true } ∧
    (getTxGetWorkingConnection
        { cacheProbeOk := false, slotOk := fun _ => true,
          versionOk := fun _ => true } ["a"] ⟨some "E"⟩ =
      { result := (tryEndpointsTx
          { cacheProbeOk := false, slotOk := fun _ => true,
            versionOk := fun _ => true } ["a"]).1,
        cache := ⟨(tryEndpointsTx
          { cacheProbeOk := false, slotOk := fun _ => true,
            versionOk := fun _ => true } ["a"]).1⟩,
        probed := (tryEndpointsTx
          { cacheProbeOk := false, slotOk := fun _ => true,
            versionOk := fun _ => true } ["a"]).2, cacheProbed := true } ∧
      (tryEndpointsTx
          { cacheProbeOk := false, slotOk := fun _ => true,
            versionOk := fun _ => true } ["a"]).2 <+: ["a"]) ∧
    pageGetWorkingConnection
        { cacheProbeOk := false, slotOk := fun _ => false,
          versionOk := fun _ => false } ["a"] (some "R") =
      { result := some "R", workingRpc := some "R", probed := [] } :=
  ⟨selector_cacheProbe_discipline.1 _ ["a"] "E" rfl,
   selector_cacheProbe_discipline.2.1 _ ["a"] "E" rfl,
   selector_cacheProbe_discipline.2.2.1 _ ["a"] "E" rfl,
   selector_cacheProbe_discipline.2.2.2.1 _ ["a"] "E" rfl,
   selector_cacheProbe_discipline.2.2.2.2 _ ["a"] "R"⟩

/-- Claim C2: the balance/mint resolver returns the quantity and mint of
the first candidate in POTENTIAL_USDC_MINTS order whose holding account
exists (nonempty data) with a nonzero balance, never a later candidate
(first conjunct; earlier candidates contribute nothing: absent account,
empty data, null/zero balance or a caught lookup error).  Phases are tried
strictly in order and each later phase is skipped once an earlier phase
returns a nonzero result: any phase-1 hit is returned as is, whatever the
phase-2/3 oracles would answer (second conjunct, with the world universally
quantified), and a phase-2 hit is returned without consulting phase 3
(third conjunct). -/
theorem detect_firstCandidate_shortCircuit :
    (∀ (w : TokenWorld) (pre post : List String) (m : String) (d : AcctData)
        (q : ℚ),
      POTENTIAL_USDC_MINTS = pre ++ m :: post →
      (∀ m' ∈ pre, tryKnownMint w m' = none) →
      w.getAccountInfo (w.ata m) = .ok (some d) →
      0 < d.len →
      w.getTokenAccountBalance (w.ata m) = .ok (some q) →
      0 < q →
      detectUsdcBalanceAndMint w = ⟨q, some m⟩) ∧
    (∀ (w : TokenWorld) (r : Resolved),
      method1Scan w POTENTIAL_USDC_MINTS = some r →
      detectUsdcBalanceAndMint w = r) ∧
    (∀ w : TokenWorld,
      method1Scan w POTENTIAL_USDC_MINTS = none →
      0 < (debugWalletTokens w).balance →
      (debugWalletTokens w).mint.isSome = true →
      detectUsdcBalanceAndMint w =
        ⟨(debugWalletTokens w).balance, (debugWalletTokens w).mint⟩) := by
  refine ⟨?_, ?_, ?_⟩
  · intro w pre post m d q hsplit hpre hai hlen hbal hq
    have htry : tryKnownMint w m = some ⟨q, some m⟩ := by
      simp [tryKnownMint, hai, hlen, hbal, hq]
    have hm1 : method1Scan w POTENTIAL_USDC_MINTS = some ⟨q, some m⟩ := by
      rw [hsplit, method1Scan_append_none w pre _ hpre]
      simp [method1Scan, htry]
    simp [detectUsdcBalanceAndMint, hm1]
  · intro w r h
    simp [detectUsdcBalanceAndMint, h]
  · intro w h hb hm
    simp only [detectUsdcBalanceAndMint, h]
    rw [if_pos ⟨hb, hm⟩]

/-- Claim C2, witness: the first candidate mint has no holding account, the
second holds 7 units; the resolver returns the second candidate. -/
theorem detect_firstCandidate_witness :
    detectUsdcBalanceAndMint
      { ata := fun s => s,
        getAccountInfo := fun a =>
          if a == "Gh9ZwEmdLJ8DscKNTkTqPbNwLNNBjuSzaG9Vp2KGtKJr" then
            .ok (some ⟨165, "x"⟩)
          else .ok none,
        getTokenAccountBalance := fun a =>
          if a == "Gh9ZwEmdLJ8DscKNTkTqPbNwLNNBjuSzaG9Vp2KGtKJr" then
            .ok (some 7)
          else .ok none,
        getSolBalance := .ok 0,
        getTokenAccountsByOwner := .ok [],
        getProgramAccounts := .ok [] } =
      ⟨7, some "Gh9ZwEmdLJ8DscKNTkTqPbNwLNNBjuSzaG9Vp2KGtKJr"⟩ :=
  detect_firstCandidate_shortCircuit.1 _
    ["4zMMC9srt5Ri5X14GAgXhaHii3GnPAEERYPJgZJDncDU"]
    ["EPjFWdd5AufqSSqeM2qN1xzybapC8G4wEGGkZwyTDt1v"]
    "Gh9ZwEmdLJ8DscKNTkTqPbNwLNNBjuSzaG9Vp2KGtKJr"
    ⟨165, "x"⟩ 7 rfl (by decide) rfl (by decide) rfl (by norm_num)

/-- Claim C5: for an owner with zero holdings across all three phases
(every known-candidate probe, every scanned account and every filtered
program account contributes nothing — zero, absent, null, or a caught
lookup error), the resolver returns the NotFound result (balance zero, no
mint) — it is a total function of the world, so no error propagates
(conjunct 1).  A thrown lookup on an individual candidate or account is
swallowed and the scan continues with the next item: the per-item scanners
map a thrown call to `none`, the continue case of their loops
(conjuncts 2-4). -/
theorem detect_notFound_neverError :
    (∀ w : TokenWorld,
      (∀ m ∈ POTENTIAL_USDC_MINTS, tryKnownMint w m = none) →
      (∀ accts, w.getTokenAccountsByOwner = .ok accts →
        ∀ pk ∈ accts, debugScanAccount w pk = none) →
      (∀ pas, w.getProgramAccounts = .ok pas →
        ∀ p ∈ pas, scanProgramAccount w p = none) →
      detectUsdcBalanceAndMint w = ⟨0, none⟩) ∧
    (∀ (w : TokenWorld) (m : String),
      w.getAccountInfo (w.ata m) = .error () → tryKnownMint w m = none) ∧
    (∀ (w : TokenWorld) (pk : String),
      w.getTokenAccountBalance pk = .error () →
      debugScanAccount w pk = none) ∧
    (∀ (w : TokenWorld) (p : String × AcctData),
      w.getTokenAccountBalance p.1 = .error () →
      scanProgramAccount w p = none) := by
  refine ⟨?_, ?_, ?_, ?_⟩
  · intro w h1 h2 h3
    have hm1 : method1Scan w POTENTIAL_USDC_MINTS = none :=
      method1Scan_eq_none w _ h1
    have hdebug : debugWalletTokens w = ⟨0, none, none⟩ := by
      unfold debugWalletTokens
      cases hsol : w.getSolBalance with
      | error e => rfl
      | ok n =>
        cases hacc : w.getTokenAccountsByOwner with
        | error e => rfl
        | ok accts => simp [debugScanList_eq_none w accts (h2 accts hacc)]
    simp only [detectUsdcBalanceAndMint, hm1, hdebug]
    rw [if_neg (by simp)]
    cases hpa : w.getProgramAccounts with
    | error e => rfl
    | ok pas => simp [method3Scan_eq_none w pas (h3 pas hpa)]
  · intro w m h
    simp [tryKnownMint, h]
  · intro w pk h
    simp [debugScanAccount, h]
  · intro w p h
    simp [scanProgramAccount, h]

/-- Claim C5, witness: a world where every account-info lookup and every
balance lookup throws, with one owned token account and one filtered
program account in scope; the resolver still returns NotFound, and each
per-item scanner swallows its thrown lookup. -/
theorem detect_notFound_witness :
    detectUsdcBalanceAndMint
      { ata := fun s => s,
        getAccountInfo := fun _ => .error (),
        getTokenAccountBalance := fun _ => .error (),
        getSolBalance := .ok 0,
        getTokenAccountsByOwner := .ok ["a1"],
        getProgramAccounts := .ok [("p1", ⟨165, "m"⟩)] } = ⟨0, none⟩ ∧
    tryKnownMint
      { ata := fun s => s,
        getAccountInfo := fun _ => .error (),
        getTokenAccountBalance := fun _ => .error (),
        getSolBalance := .ok 0,
        getTokenAccountsByOwner := .ok ["a1"],
        getProgramAccounts := .ok [("p1", ⟨165, "m"⟩)] } "m0" = none ∧
    debugScanAccount
      { ata := fun s => s,
        getAccountInfo := fun _ => .error (),
        getTokenAccountBalance := fun _ => .error (),
        getSolBalance := .ok 0,
        getTokenAccountsByOwner := .ok ["a1"],
        getProgramAccounts := .ok [("p1", ⟨165, "m"⟩)] } "a1" = none ∧
    scanProgramAccount
      { ata := fun s => s,
        getAccountInfo := fun _ => .error (),
        getTokenAccountBalance := fun _ => .error (),
        getSolBalance := .ok 0,
        getTokenAccountsByOwner := .ok ["a1"],
        getProgramAccounts := .ok [("p1", ⟨165, "m"⟩)] }
      ("p1", ⟨165, "m"⟩) = none :=
  ⟨detect_notFound_neverError.1 _ (by decide)
      (by
        intro accts hacc pk hpk
        cases hacc
        simp only [List.mem_singleton] at hpk
        subst hpk
        rfl)
      (by
        intro pas hpa p hp
        cases hpa
        simp only [List.mem_singleton] at hp
        subst hp
        rfl),
   detect_notFound_neverError.2.1 _ "m0" rfl,
   detect_notFound_neverError.2.2.1 _ "a1" rfl,
   detect_notFound_neverError.2.2.2 _ ("p1", ⟨165, "m"⟩) rfl⟩

theorem confirmPost_ok_eq (w : ConfirmWorld) (sig name : String) (q : ℚ)
    (cache : ConnCache) (db : Db) (tx : ParsedTx) (conn : String)
    (hne : sig ≠ "")
    (hsel : (apiGetWorkingConnection w.selWorld RPC_ENDPOINTS cache).result =
      some conn)
    (hfetch : (confirmFetchRun w.rpcAt w.fetchAt
      (apiGetWorkingConnection w.selWorld RPC_ENDPOINTS cache).cache).1 =
      some tx)
    (hin : MERCHANT_WALLET ∈ tx.accountKeys) :
    confirmPost w (some ⟨some sig, some ⟨name, q⟩⟩) cache db =
      (.ok,
       (confirmFetchRun w.rpcAt w.fetchAt
         (apiGetWorkingConnection w.selWorld RPC_ENDPOINTS cache).cache).2.1,
       { transactions := db.transactions ++
           [{ buyer := tx.accountKeys.headI, product := name, amount := q,
              signature := sig,
              timestamp :=
                match tx.blockTime with
                | some bt => bt * 1000
                | none => w.nowMs,
              imageUrl :=
                match w.imageGen with
                | .ok u => some u
                | .error _ => none }],
         totalSales := db.totalSales + q,
         nftReceiptsIssued := db.nftReceiptsIssued + 1 }) := by
  obtain ⟨y, ys, hk⟩ := List.exists_cons_of_ne_nil (List.ne_nil_of_mem hin)
  simp only [confirmPost]
  rw [if_neg hne]
  simp only [hsel, hfetch]
  rw [if_pos hin]
  rw [hk]
  simp [List.headI]

theorem confirmPost_notValid_eq (w : ConfirmWorld) (sig name : String)
    (q : ℚ) (cache : ConnCache) (db : Db) (tx : ParsedTx) (conn : String)
    (hne : sig ≠ "")
    (hsel : (apiGetWorkingConnection w.selWorld RPC_ENDPOINTS cache).result =
      some conn)
    (hfetch : (confirmFetchRun w.rpcAt w.fetchAt
      (apiGetWorkingConnection w.selWorld RPC_ENDPOINTS cache).cache).1 =
      some tx)
    (hout : MERCHANT_WALLET ∉ tx.accountKeys) :
    confirmPost w (some ⟨some sig, some ⟨name, q⟩⟩) cache db =
      (.notValid,
       (confirmFetchRun w.rpcAt w.fetchAt
         (apiGetWorkingConnection w.selWorld RPC_ENDPOINTS cache).cache).2.1,
       db) := by
  simp only [confirmPost]
  rw [if_neg hne]
  simp only [hsel, hfetch]
  rw [if_neg hout]

/-- Claim C3: for every confirm-payment request whose transaction is
fetched from the network (the request passed validation, a connection was
selected and the retry loop produced a transaction), a receipt is appended
to the ledger and the running totals are incremented (total sales by the
product's price, issued-receipt count by one) exactly when the merchant
wallet address appears among the fetched transaction's account keys; when
the merchant address is absent the handler responds "Transaction not
valid" with HTTP status 400 and the ledger is unchanged.  The transaction
is universally quantified, including its `meta.err` on-chain status, which
the handler never reads — so this holds regardless of on-chain status. -/
theorem confirm_merchantGate (w : ConfirmWorld) (sig name : String) (q : ℚ)
    (cache : ConnCache) (db : Db) (tx : ParsedTx) (conn : String)
    (hne : sig ≠ "")
    (hsel : (apiGetWorkingConnection w.selWorld RPC_ENDPOINTS cache).result =
      some conn)
    (hfetch : (confirmFetchRun w.rpcAt w.fetchAt
      (apiGetWorkingConnection w.selWorld RPC_ENDPOINTS cache).cache).1 =
      some tx) :
    (MERCHANT_WALLET ∈ tx.accountKeys →
      confirmPost w (some ⟨some sig, some ⟨name, q⟩⟩) cache db =
        (.ok,
         (confirmFetchRun w.rpcAt w.fetchAt
           (apiGetWorkingConnection w.selWorld RPC_ENDPOINTS cache).cache).2.1,
         { transactions := db.transactions ++
             [{ buyer := tx.accountKeys.headI, product := name, amount := q,
                signature := sig,
                timestamp :=
                  match tx.blockTime with
                  | some bt => bt * 1000
                  | none => w.nowMs,
                imageUrl :=
                  match w.imageGen with
                  | .ok u => some u
                  | .error _ => none }],
           totalSales := db.totalSales + q,
           nftReceiptsIssued := db.nftReceiptsIssued + 1 })) ∧
    (MERCHANT_WALLET ∉ tx.accountKeys →
      confirmPost w (some ⟨some sig, some ⟨name, q⟩⟩) cache db =
        (.notValid,
         (confirmFetchRun w.rpcAt w.fetchAt
           (apiGetWorkingConnection w.selWorld RPC_ENDPOINTS cache).cache).2.1,
         db)) ∧
    ConfirmResp.status .notValid = 400 ∧ ConfirmResp.status .ok = 200 :=
  ⟨fun hin => confirmPost_ok_eq w sig name q cache db tx conn hne hsel
      hfetch hin,
   fun hout => confirmPost_notValid_eq w sig name q cache db tx conn hne hsel
      hfetch hout,
   rfl, rfl⟩

/-- Claim C3, witness: a concrete request against a transaction whose
account keys contain the merchant wallet (and one whose keys do not). -/
theorem confirm_merchantGate_witness :
    confirmPost
      { selWorld := ⟨true, fun _ => true, fun _ => true⟩,
        rpcAt := fun _ => ⟨true, fun _ => true, fun _ => true⟩,
        fetchAt := fun _ => .found ⟨[MERCHANT_WALLET, "other"], some 2, false⟩,
        imageGen := .error (), nowMs := 9 }
      (some ⟨some "s1", some ⟨"Widget", 12⟩⟩) ⟨none⟩ dbInit =
      (.ok, ⟨some "https://api.devnet.solana.com"⟩,
       { transactions :=
           [{ buyer := MERCHANT_WALLET, product := "Widget", amount := 12,
              signature := "s1", timestamp := 2 * 1000, imageUrl := none }],
         totalSales := 0 + 12, nftReceiptsIssued := 0 + 1 }) :=
  (confirm_merchantGate
      { selWorld := ⟨true, fun _ => true, fun _ => true⟩,
        rpcAt := fun _ => ⟨true, fun _ => true, fun _ => true⟩,
        fetchAt := fun _ => .found ⟨[MERCHANT_WALLET, "other"], some 2, false⟩,
        imageGen := .error (), nowMs := 9 }
      "s1" "Widget" 12 ⟨none⟩ dbInit ⟨[MERCHANT_WALLET, "other"], some 2, false⟩
      "https://api.devnet.solana.com" (by decide) rfl rfl).1
    (List.mem_cons_self _ _)

theorem fetchGo_fetchCount_le (selFn : RpcWorld → ConnCache → SelectResult)
    (rpcAt : Nat → RpcWorld) (fetchAt : Nat → FetchOutcome) :
    ∀ (rem attempt : Nat) (c : ConnCache),
      ((fetchGo selFn rpcAt fetchAt attempt rem c).2.2).countP isFetchEv ≤
        rem := by
  intro rem
  induction rem with
  | zero =>
    intro attempt c
    simp [fetchGo]
  | succ n ih =>
    intro attempt c
    cases hf : fetchAt attempt with
    | found tx =>
      simp [fetchGo, hf, isFetchEv, List.countP_cons]
    | notFound =>
      have h1 := ih (attempt + 1) c
      simp [fetchGo, hf, isFetchEv, List.countP_cons]
      omega
    | threw =>
      by_cases hlt : attempt < maxRetries - 1
      · cases hres : (selFn (rpcAt attempt) ⟨none⟩).result with
        | none =>
          simp [fetchGo, hf, if_pos hlt, hres, isFetchEv, List.countP_cons]
        | some e =>
          have h1 := ih (attempt + 1) (selFn (rpcAt attempt) ⟨none⟩).cache
          simp [fetchGo, hf, if_pos hlt, hres, isFetchEv, List.countP_cons]
          omega
      · have h1 := ih (attempt + 1) c
        simp [fetchGo, hf, if_neg hlt, isFetchEv, List.countP_cons]
        omega

/-- Claim C6: both transaction-fetch retry loops (confirm-payment POST and
get-transaction GET) perform at most `maxRetries = 3` fetch attempts; the
loop is a total function of a fuel argument that decreases every iteration
(mirroring the `attempt++` of the JS `while` loop), so it always
terminates (conjunct 1, for both routes' runs).  The remaining conjuncts
characterise every loop step, at an arbitrary attempt index, remaining
fuel and cache state — so they apply at whatever point of a run an
attempt fails, e.g. a throw at attempt 1 after a null attempt 0:
a null (not-found) attempt retries with the cache unchanged (conjunct 2);
after an attempt that throws with attempts remaining, the cache slot is
emptied and the selector re-runs on the empty slot — when it succeeds,
the trace records the re-acquisition between this attempt and the next,
and the loop continues from the re-acquired cache, the old one discarded
(conjunct 3); when no endpoint can be re-acquired the loop exits
immediately, with no further fetch attempts (conjunct 4); a throw on the
final attempt triggers no re-acquisition (conjunct 5).  `selFn` is
universally quantified, covering both routes' selectors. -/
theorem fetchLoop_bounded_reacquire :
    (∀ (rpcAt : Nat → RpcWorld) (fetchAt : Nat → FetchOutcome)
        (c : ConnCache),
      ((confirmFetchRun rpcAt fetchAt c).2.2).countP isFetchEv ≤ maxRetries ∧
      ((getTxFetchRun rpcAt fetchAt c).2.2).countP isFetchEv ≤ maxRetries) ∧
    (∀ (selFn : RpcWorld → ConnCache → SelectResult)
        (rpcAt : Nat → RpcWorld) (fetchAt : Nat → FetchOutcome)
        (attempt rem : Nat) (c : ConnCache),
      fetchAt attempt = .notFound →
      fetchGo selFn rpcAt fetchAt attempt (rem + 1) c =
        ((fetchGo selFn rpcAt fetchAt (attempt + 1) rem c).1,
         (fetchGo selFn rpcAt fetchAt (attempt + 1) rem c).2.1,
         .fetchEv attempt ::
           (fetchGo selFn rpcAt fetchAt (attempt + 1) rem c).2.2)) ∧
    (∀ (selFn : RpcWorld → ConnCache → SelectResult)
        (rpcAt : Nat → RpcWorld) (fetchAt : Nat → FetchOutcome)
        (attempt rem : Nat) (c : ConnCache) (e : String),
      fetchAt attempt = .threw →
      attempt < maxRetries - 1 →
      (selFn (rpcAt attempt) ⟨none⟩).result = some e →
      fetchGo selFn rpcAt fetchAt attempt (rem + 1) c =
        ((fetchGo selFn rpcAt fetchAt (attempt + 1) rem
            (selFn (rpcAt attempt) ⟨none⟩).cache).1,
         (fetchGo selFn rpcAt fetchAt (attempt + 1) rem
            (selFn (rpcAt attempt) ⟨none⟩).cache).2.1,
         .fetchEv attempt :: .reacqEv attempt (some e) ::
           (fetchGo selFn rpcAt fetchAt (attempt + 1) rem
             (selFn (rpcAt attempt) ⟨none⟩).cache).2.2)) ∧
    (∀ (selFn : RpcWorld → ConnCache → SelectResult)
        (rpcAt : Nat → RpcWorld) (fetchAt : Nat → FetchOutcome)
        (attempt rem : Nat) (c : ConnCache),
      fetchAt attempt = .threw →
      attempt < maxRetries - 1 →
      (selFn (rpcAt attempt) ⟨none⟩).result = none →
      fetchGo selFn rpcAt fetchAt attempt (rem + 1) c =
        (none, (selFn (rpcAt attempt) ⟨none⟩).cache,
         [.fetchEv attempt, .reacqEv attempt none])) ∧
    (∀ (selFn : RpcWorld → ConnCache → SelectResult)
        (rpcAt : Nat → RpcWorld) (fetchAt : Nat → FetchOutcome)
        (attempt rem : Nat) (c : ConnCache),
      fetchAt attempt = .threw →
      ¬ attempt < maxRetries - 1 →
      fetchGo selFn rpcAt fetchAt attempt (rem + 1) c =
        ((fetchGo selFn rpcAt fetchAt (attempt + 1) rem c).1,
         (fetchGo selFn rpcAt fetchAt (attempt + 1) rem c).2.1,
         .fetchEv attempt ::
           (fetchGo selFn rpcAt fetchAt (attempt + 1) rem c).2.2)) := by
  refine ⟨?_, ?_, ?_, ?_, ?_⟩
  · intro rpcAt fetchAt c
    exact ⟨fetchGo_fetchCount_le apiSelFn rpcAt fetchAt maxRetries 0 c,
      fetchGo_fetchCount_le getTxSelFn rpcAt fetchAt maxRetries 0 c⟩
  · intro selFn rpcAt fetchAt attempt rem c hf
    simp [fetchGo, hf]
  · intro selFn rpcAt fetchAt attempt rem c e hf hlt hres
    simp [fetchGo, hf, if_pos hlt, hres]
  · intro selFn rpcAt fetchAt attempt rem c hf hlt hres
    simp [fetchGo, hf, if_pos hlt, hres]
  · intro selFn rpcAt fetchAt attempt rem c hf hlt
    simp [fetchGo, hf, if_neg hlt]

/-- Claim C6, witness: concrete runs of all five conjuncts — the bound on
full runs; a null step at attempt 0; a throw at attempt 1 following that
null attempt 0, once with a live world (re-acquisition succeeds and the
trace interleaves it before attempt 2) and once with a dead world (the
loop exits right after the failed re-acquisition); and a throw on the
final attempt 2. -/
theorem fetchLoop_bounded_reacquire_witness :
    (((confirmFetchRun (fun _ => ⟨true, fun _ => true, fun _ => true⟩)
        (fun _ => .notFound) ⟨none⟩).2.2).countP isFetchEv ≤ maxRetries ∧
     ((getTxFetchRun (fun _ => ⟨true, fun _ => true, fun _ => true⟩)
        (fun _ => .notFound) ⟨none⟩).2.2).countP isFetchEv ≤ maxRetries) ∧
    fetchGo apiSelFn (fun _ => ⟨true, fun _ => true, fun _ => true⟩)
        (fun n => if n == 0 then .notFound else .threw) 0 (2 + 1)
        ⟨some "E"⟩ =
      ((fetchGo apiSelFn (fun _ => ⟨true, fun _ => true, fun _ => true⟩)
          (fun n => if n == 0 then .notFound else .threw) 1 2
          ⟨some "E"⟩).1,
       (fetchGo apiSelFn (fun _ => ⟨true, fun _ => true, fun _ => true⟩)
          (fun n => if n == 0 then .notFound else .threw) 1 2
          ⟨some "E"⟩).2.1,
       .fetchEv 0 ::
         (fetchGo apiSelFn (fun _ => ⟨true, fun _ => true, fun _ => true⟩)
           (fun n => if n == 0 then .notFound else .threw) 1 2
           ⟨some "E"⟩).2.2) ∧
    fetchGo apiSelFn (fun _ => ⟨true, fun _ => true, fun _ => true⟩)
        (fun n => if n == 0 then .notFound else .threw) 1 (1 + 1)
        ⟨some "E"⟩ =
      ((fetchGo apiSelFn (fun _ => ⟨true, fun _ => true, fun _ => true⟩)
          (fun n => if n == 0 then .notFound else .threw) 2 1
          (apiSelFn (⟨true, fun _ => true, fun _ => true⟩ : RpcWorld)
            ⟨none⟩).cache).1,
       (fetchGo apiSelFn (fun _ => ⟨true, fun _ => true, fun _ => true⟩)
          (fun n => if n == 0 then .notFound else .threw) 2 1
          (apiSelFn (⟨true, fun _ => true, fun _ => true⟩ : RpcWorld)
            ⟨none⟩).cache).2.1,
       .fetchEv 1 ::
         .reacqEv 1 (some "https://api.devnet.solana.com") ::
         (fetchGo apiSelFn (fun _ => ⟨true, fun _ => true, fun _ => true⟩)
           (fun n => if n == 0 then .notFound else .threw) 2 1
           (apiSelFn (⟨true, fun _ => true, fun _ => true⟩ : RpcWorld)
             ⟨none⟩).cache).2.2) ∧
    fetchGo getTxSelFn (fun _ => ⟨false, fun _ => false, fun _ => false⟩)
        (fun n => if n == 0 then .notFound else .threw) 1 (1 + 1)
        ⟨some "E"⟩ =
      (none, (getTxSelFn
          (⟨false, fun _ => false, fun _ => false⟩ : RpcWorld) ⟨none⟩).cache,
       [.fetchEv 1, .reacqEv 1 none]) ∧
    fetchGo apiSelFn (fun _ => ⟨true, fun _ => true, fun _ => true⟩)
        (fun _ => .threw) 2 (0 + 1) ⟨some "E"⟩ =
      ((fetchGo apiSelFn (fun _ => ⟨true, fun _ => true, fun _ => true⟩)
          (fun _ => .threw) 3 0 ⟨some "E"⟩).1,
       (fetchGo apiSelFn (fun _ => ⟨true, fun _ => true, fun _ => true⟩)
          (fun _ => .threw) 3 0 ⟨some "E"⟩).2.1,
       .fetchEv 2 ::
         (fetchGo apiSelFn (fun _ => ⟨true, fun _ => true, fun _ => true⟩)
           (fun _ => .threw) 3 0 ⟨some "E"⟩).2.2) :=
  ⟨fetchLoop_bounded_reacquire.1 _ _ ⟨none⟩,
   fetchLoop_bounded_reacquire.2.1 apiSelFn _ _ 0 2 ⟨some "E"⟩ rfl,
   fetchLoop_bounded_reacquire.2.2.1 apiSelFn _ _ 1 1 ⟨some "E"⟩
     "https://api.devnet.solana.com" rfl (by decide) rfl,
   fetchLoop_bounded_reacquire.2.2.2.1 getTxSelFn _ _ 1 1 ⟨some "E"⟩
     rfl (by decide) rfl,
   fetchLoop_bounded_reacquire.2.2.2.2 apiSelFn _ _ 2 0 ⟨some "E"⟩
     rfl (by decide)⟩

/-- Claim C7, counterexample: the confirm-payment handler performs no price
validation.  For a request with product price 0 (not a positive number)
whose transaction is found and includes the merchant wallet, the claim
requires a client-error (400) response and an unchanged ledger; instead
the handler answers with status 200 and records a receipt (the issued
count becomes 1). -/
theorem confirm_priceNotValidated_cx :
    ConfirmResp.status
      (confirmPost
        { selWorld := ⟨true, fun _ => true, fun _ => true⟩,
          rpcAt := fun _ => ⟨true, fun _ => true, fun _ => true⟩,
          fetchAt := fun _ => .found ⟨[MERCHANT_WALLET], some 5, false⟩,
          imageGen := .error (), nowMs := 0 }
        (some ⟨some "sig1", some ⟨"Widget", 0⟩⟩) ⟨none⟩ dbInit).1 = 200 ∧
    (confirmPost
        { selWorld := ⟨true, fun _ => true, fun _ => true⟩,
          rpcAt := fun _ => ⟨true, fun _ => true, fun _ => true⟩,
          fetchAt := fun _ => .found ⟨[MERCHANT_WALLET], some 5, false⟩,
          imageGen := .error (), nowMs := 0 }
        (some ⟨some "sig1", some ⟨"Widget", 0⟩⟩) ⟨none⟩
        dbInit).2.2.nftReceiptsIssued = 1 ∧
    ¬ ((0 : ℚ) > 0) :=
  ⟨rfl, rfl, by norm_num⟩

/-- Claim C7, amended: the initiate-payment endpoint rejects a missing,
non-numeric, zero or negative product price with a 400 "Invalid product
price" response before any network activity or transaction building (the
selector is not invoked and no instruction list is produced).  The
confirm-payment endpoint has no such validation: it checks only that
signature and product are present, and a request with non-positive price
that reaches a fetched merchant transaction is accepted (status ok) and
recorded, changing the ledger. -/
theorem price_validation_initiate_only :
    (∀ (w : InitWorld) (a : AccountField) (p : InitProduct)
        (mintF : Option String) (c : ConnCache),
      a ≠ .str "" →
      (p.price = none ∨ ∃ q, p.price = some q ∧ q ≤ 0) →
      initiatePost w (.parsed ⟨some a, some p, mintF⟩) c =
        ⟨.err 400 "Invalid product price", c, false⟩) ∧
    (∀ (w : ConfirmWorld) (sig name : String) (q : ℚ) (cache : ConnCache)
        (db : Db) (tx : ParsedTx) (conn : String),
      sig ≠ "" → q ≤ 0 →
      (apiGetWorkingConnection w.selWorld RPC_ENDPOINTS cache).result =
        some conn →
      (confirmFetchRun w.rpcAt w.fetchAt
        (apiGetWorkingConnection w.selWorld RPC_ENDPOINTS cache).cache).1 =
        some tx →
      MERCHANT_WALLET ∈ tx.accountKeys →
      (confirmPost w (some ⟨some sig, some ⟨name, q⟩⟩) cache db).1 = .ok ∧
      (confirmPost w (some ⟨some sig, some ⟨name, q⟩⟩)
          cache db).2.2.transactions ≠ db.transactions) := by
  constructor
  · intro w a p mintF c ha hp
    rcases hp with hp | ⟨q, hp, hq⟩
    · simp [initiatePost, if_neg ha, hp]
    · simp [initiatePost, if_neg ha, hp, if_pos hq]
  · intro w sig name q cache db tx conn hne hq hsel hfetch hin
    have heq := confirmPost_ok_eq w sig name q cache db tx conn hne hsel
      hfetch hin
    rw [heq]
    refine ⟨rfl, ?_⟩
    intro hcontra
    have := congrArg List.length hcontra
    simp at this

/-- Claim C7, witness for the amended statement: a concrete zero-price
initiate request is rejected without network activity, and a concrete
zero-price confirm request is accepted and recorded. -/
theorem price_validation_initiate_only_witness :
    initiatePost
        { rpc := ⟨true, fun _ => true, fun _ => true⟩,
          validAddr := fun _ => true, ataOf := fun m o => m ++ "-" ++ o,
          acctExists := fun _ => .ok true, getLatestBlockhash := .ok (),
          serializeOk := true }
        (.parsed ⟨some (.str "user1"), some ⟨some 0⟩, none⟩) ⟨none⟩ =
      ⟨.err 400 "Invalid product price", ⟨none⟩, false⟩ ∧
    ((confirmPost
        { selWorld := ⟨true, fun _ => true, fun _ => true⟩,
          rpcAt := fun _ => ⟨true, fun _ => true, fun _ => true⟩,
          fetchAt := fun _ => .found ⟨[MERCHANT_WALLET], some 5, false⟩,
          imageGen := .error (), nowMs := 0 }
        (some ⟨some "sigw", some ⟨"Widget", -3⟩⟩) ⟨none⟩ dbInit).1 = .ok ∧
     (confirmPost
        { selWorld := ⟨true, fun _ => true, fun _ => true⟩,
          rpcAt := fun _ => ⟨true, fun _ => true, fun _ => true⟩,
          fetchAt := fun _ => .found ⟨[MERCHANT_WALLET], some 5, false⟩,
          imageGen := .error (), nowMs := 0 }
        (some ⟨some "sigw", some ⟨"Widget", -3⟩⟩) ⟨none⟩
        dbInit).2.2.transactions ≠ dbInit.transactions) :=
  ⟨price_validation_initiate_only.1 _ (.str "user1") ⟨some 0⟩ none ⟨none⟩
      (by decide) (Or.inr ⟨0, rfl, le_refl 0⟩),
   price_validation_initiate_only.2 _ "sigw" "Widget" (-3) ⟨none⟩ dbInit
      ⟨[MERCHANT_WALLET], some 5, false⟩ "https://api.devnet.solana.com"
      (by decide) (by norm_num) rfl rfl (List.mem_cons_self _ _)⟩

/-- Claim C9: the ledger invariant — `totalSales` equals the sum of the
recorded amounts and `nftReceiptsIssued` equals the number of records —
holds initially and is preserved by the confirm-payment handler (the only
operation that writes the ledger), which moreover only appends: the old
record list is a prefix of the new one, so every existing record is
preserved unchanged.  The get-transaction handler and the dashboard read
return the ledger untouched (and the initiate-payment handler does not
take the ledger at all). -/
theorem ledger_invariant_preserved :
    DbInv dbInit ∧
    (∀ (w : ConfirmWorld) (req : Option ConfirmBody) (cache : ConnCache)
        (db : Db),
      DbInv db →
      DbInv (confirmPost w req cache db).2.2 ∧
      db.transactions <+: (confirmPost w req cache db).2.2.transactions) ∧
    (∀ (w : GetTxWorld) (sig : Option String) (cache : ConnCache) (db : Db),
      (getTransactionGET w sig cache db).2.2 = db) ∧
    (∀ db : Db, (dashboardGET db).2 = db) := by
  refine ⟨⟨rfl, rfl⟩, ?_, ?_, ?_⟩
  · intro w req cache db hInv
    obtain ⟨h1, h2⟩ := hInv
    have hkeep : DbInv db ∧ db.transactions <+: db.transactions :=
      ⟨⟨h1, h2⟩, List.prefix_refl _⟩
    cases req with
    | none => exact hkeep
    | some b =>
      obtain ⟨bs, bp⟩ := b
      cases bs with
      | none => exact hkeep
      | some sig =>
        cases bp with
        | none => exact hkeep
        | some product =>
          simp only [confirmPost]
          by_cases hsig : sig = ""
          · rw [if_pos hsig]
            exact hkeep
          · rw [if_neg hsig]
            cases hres :
                (apiGetWorkingConnection w.selWorld RPC_ENDPOINTS
                  cache).result with
            | none =>
              simp only [hres]
              exact hkeep
            | some conn =>
              simp only [hres]
              cases hfr :
                  (confirmFetchRun w.rpcAt w.fetchAt
                    (apiGetWorkingConnection w.selWorld RPC_ENDPOINTS
                      cache).cache).1 with
              | none =>
                simp only [hfr]
                exact hkeep
              | some tx =>
                simp only [hfr]
                by_cases hin : MERCHANT_WALLET ∈ tx.accountKeys
                · rw [if_pos hin]
                  cases hhead : tx.accountKeys.head? with
                  | none =>
                    simp only [hhead]
                    exact hkeep
                  | some buyer =>
                    simp only [hhead]
                    refine ⟨⟨?_, ?_⟩, List.prefix_append _ _⟩
                    · simp [List.map_append, List.sum_append, h1]
                    · simp [List.length_append, h2]
                · rw [if_neg hin]
                  exact hkeep
  · intro w sig cache db
    cases sig with
    | none => rfl
    | some s =>
      simp only [getTransactionGET]
      by_cases h0 : s = ""
      · rw [if_pos h0]
      · rw [if_neg h0]
        by_cases h1 : strTrim s = ""
        · rw [if_pos h1]
        · rw [if_neg h1]
          cases hfind :
              db.transactions.find?
                (fun r => r.signature == strTrim s) with
          | some r => simp only [hfind]
          | none =>
            simp only [hfind]
            cases hres :
                (getTxGetWorkingConnection w.selWorld RPC_ENDPOINTS
                  cache).result with
            | none => simp only [hres]
            | some conn =>
              simp only [hres]
              cases hfr :
                  (getTxFetchRun w.rpcAt w.fetchAt
                    (getTxGetWorkingConnection w.selWorld RPC_ENDPOINTS
                      cache).cache).1 with
              | some tx => simp only [hfr]
              | none => simp only [hfr]
  · intro db
    rfl

/-- Claim C9, witness: the invariant holds for the ledger produced by a
successful confirm-payment run starting from the initial ledger, whose
record list extends the initial one. -/
theorem ledger_invariant_preserved_witness :
    DbInv
      (confirmPost
        { selWorld := ⟨true, fun _ => true, fun _ => true⟩,
          rpcAt := fun _ => ⟨true, fun _ => true, fun _ => true⟩,
          fetchAt := fun _ => .found ⟨[MERCHANT_WALLET], some 2, false⟩,
          imageGen := .error (), nowMs := 0 }
        (some ⟨some "s9", some ⟨"Widget", 12⟩⟩) ⟨none⟩ dbInit).2.2 ∧
    dbInit.transactions <+:
      (confirmPost
        { selWorld := ⟨true, fun _ => true, fun _ => true⟩,
          rpcAt := fun _ => ⟨true, fun _ => true, fun _ => true⟩,
          fetchAt := fun _ => .found ⟨[MERCHANT_WALLET], some 2, false⟩,
          imageGen := .error (), nowMs := 0 }
        (some ⟨some "s9", some ⟨"Widget", 12⟩⟩) ⟨none⟩
        dbInit).2.2.transactions :=
  ledger_invariant_preserved.2.1 _ _ ⟨none⟩ dbInit ⟨rfl, rfl⟩

/-- Claim C10: when the optional token identifier of an initiate-payment
request is absent or not a valid address, the request is not rejected on
that account — `getUsdcMint` silently substitutes the first entry of
POTENTIAL_USDC_MINTS (conjuncts 1 and 2), and an otherwise valid request
proceeds to build the transfer against that default mint's associated
token addresses (conjunct 3, with both token accounts existing so that the
transaction is exactly the transfer instruction). -/
theorem usdcMint_fallback_builds :
    (∀ validAddr : String → Bool,
      getUsdcMint validAddr none =
        "4zMMC9srt5Ri5X14GAgXhaHii3GnPAEERYPJgZJDncDU") ∧
    (∀ (validAddr : String → Bool) (s : String),
      validAddr s = false →
      getUsdcMint validAddr (some s) =
        "4zMMC9srt5Ri5X14GAgXhaHii3GnPAEERYPJgZJDncDU") ∧
    (∀ (w : InitWorld) (s cn : String) (q : ℚ) (mintF : Option String)
        (c : ConnCache),
      strTrim s ≠ "" → w.validAddr (strTrim s) = true → 0 < q →
      (mintF = none ∨ ∃ ms, mintF = some ms ∧ w.validAddr ms = false) →
      (apiGetWorkingConnection w.rpc RPC_ENDPOINTS c).result = some cn →
      w.acctExists
        (w.ataOf "4zMMC9srt5Ri5X14GAgXhaHii3GnPAEERYPJgZJDncDU"
          (strTrim s)) = .ok true →
      w.acctExists
        (w.ataOf "4zMMC9srt5Ri5X14GAgXhaHii3GnPAEERYPJgZJDncDU"
          MERCHANT_WALLET) = .ok true →
      w.getLatestBlockhash = .ok () →
      w.serializeOk = true →
      initiatePost w (.parsed ⟨some (.str s), some ⟨some q⟩, mintF⟩) c =
        ⟨.okTx
          [.transfer
            (w.ataOf "4zMMC9srt5Ri5X14GAgXhaHii3GnPAEERYPJgZJDncDU"
              (strTrim s))
            (w.ataOf "4zMMC9srt5Ri5X14GAgXhaHii3GnPAEERYPJgZJDncDU"
              MERCHANT_WALLET)
            (strTrim s) (q * 1000000)]
          "4zMMC9srt5Ri5X14GAgXhaHii3GnPAEERYPJgZJDncDU",
         (apiGetWorkingConnection w.rpc RPC_ENDPOINTS c).cache, true⟩) := by
  refine ⟨fun _ => rfl, ?_, ?_⟩
  · intro validAddr s hs
    simp [getUsdcMint, hs, POTENTIAL_USDC_MINTS]
  · intro w s cn q mintF c htrim hvalid hq hmint hsel hu hm hbh hser
    have hs0 : (AccountField.str s) ≠ .str "" := by
      intro h
      apply htrim
      cases h
      rfl
    have hmint' : getUsdcMint w.validAddr mintF =
        "4zMMC9srt5Ri5X14GAgXhaHii3GnPAEERYPJgZJDncDU" := by
      rcases hmint with rfl | ⟨ms, rfl, hms⟩
      · rfl
      · simp [getUsdcMint, hms, POTENTIAL_USDC_MINTS]
    simp only [initiatePost, if_neg hs0]
    rw [if_neg (not_le.mpr hq), if_neg htrim, if_neg (by simp [hvalid])]
    simp only [initiateChecked, hmint', hsel, hu, hm, hbh, hser]
    simp

/-- Claim C10, witness: an initiate request with no mint field and one with
an invalid mint field both build the transfer against the default mint. -/
theorem usdcMint_fallback_builds_witness :
    getUsdcMint (fun _ => false) none =
      "4zMMC9srt5Ri5X14GAgXhaHii3GnPAEERYPJgZJDncDU" ∧
    getUsdcMint (fun _ => false) (some "notAMint") =
      "4zMMC9srt5Ri5X14GAgXhaHii3GnPAEERYPJgZJDncDU" ∧
    initiatePost
        { rpc := ⟨true, fun _ => true, fun _ => true⟩,
          validAddr := fun a => a == "user1",
          ataOf := fun m o => m ++ "-" ++ o,
          acctExists := fun _ => .ok true, getLatestBlockhash := .ok (),
          serializeOk := true }
        (.parsed ⟨some (.str "user1"), some ⟨some 12⟩, some "notAMint"⟩)
        ⟨none⟩ =
      ⟨.okTx
        [.transfer
          ("4zMMC9srt5Ri5X14GAgXhaHii3GnPAEERYPJgZJDncDU" ++ "-" ++
            strTrim "user1")
          ("4zMMC9srt5Ri5X14GAgXhaHii3GnPAEERYPJgZJDncDU" ++ "-" ++
            MERCHANT_WALLET)
          (strTrim "user1") (12 * 1000000)]
        "4zMMC9srt5Ri5X14GAgXhaHii3GnPAEERYPJgZJDncDU",
       ⟨some "https://api.devnet.solana.com"⟩, true⟩ :=
  ⟨usdcMint_fallback_builds.1 _,
   usdcMint_fallback_builds.2.1 _ "notAMint" rfl,
   usdcMint_fallback_builds.2.2 _ "user1"
      "https://api.devnet.solana.com" 12 (some "notAMint") ⟨none⟩
      (by decide) (by decide) (by norm_num)
      (Or.inr ⟨"notAMint", rfl, rfl⟩) rfl rfl rfl rfl rfl⟩

end OneClick
